import Mathlib

/-!
Verification of the yosai authentication toolkit against its specification.

The repository provides: an event bus proxy over a pub/sub backend
(`yosai/event/event.py`), an authenticator orchestrating single- and
multi-realm authentication, a username/password token, and a serialization
manager with a MessagePack binary codec.  The event module is embedded
directly from its source; components whose source is not part of this
snapshot (the authenticator, the token, the serialization manager and the
binary codec — only their tests are present) are modelled from the
specification, and each such definition says so in its doc comment.
-/

set_option maxHeartbeats 1000000
set_option linter.unusedVariables false

namespace Yosai

/-- The exception taxonomy of the system (spec section 4.12, plus the two
realm-level failure kinds of section 4.3): each failure an operation can
raise is one of these distinguishable kinds. -/
inductive YosaiError where
  | authenticationFailure (msg : String)
  | unsupportedTokenError
  | multiRealmAuthenticationFailure (reasons : List (String × String))
  | accountNotFound
  | invalidCredentials
  | eventBusTopicError (msg : String)
  | eventBusMessageDataError (msg : String)
  | eventBusSubscriptionError (msg : String)
  | serializationFailure
  | invalidSerializationFormat
  deriving DecidableEq, Repr

/-- Short description of an error, used when aggregating per-realm failure
reasons into a MultiRealmAuthenticationFailure. -/
def YosaiError.describe : YosaiError → String
  | .authenticationFailure m => "AuthenticationFailure: " ++ m
  | .unsupportedTokenError => "UnsupportedTokenError"
  | .multiRealmAuthenticationFailure _ => "MultiRealmAuthenticationFailure"
  | .accountNotFound => "AccountNotFound"
  | .invalidCredentials => "InvalidCredentials"
  | .eventBusTopicError m => "EventBusTopicError: " ++ m
  | .eventBusMessageDataError m => "EventBusMessageDataError: " ++ m
  | .eventBusSubscriptionError m => "EventBusSubscriptionError: " ++ m
  | .serializationFailure => "SerializationFailure"
  | .invalidSerializationFormat => "InvalidSerializationFormat"

/-- Bytes of a string, one natural number per character code point.
Passwords in the token are ASCII in every test, so this models the
utf-8 byte buffer the Python code keeps. -/
def strBytes (s : String) : List Nat := s.data.map Char.toNat

/-- Modelled from the spec (section 3 and 4.1): the authentication token.
`UsernamePasswordToken` itself is not in this source snapshot; the structure
carries the four declared fields, plus the class tag used by a realm's
supported-token predicate. The password is the mutable byte buffer. -/
structure UsernamePasswordToken where
  token_class : String
  username : String
  password : List Nat
  remember_me : Bool
  host : String
  deriving DecidableEq, Repr

/-- Modelled from the spec (section 4.1): construct(username, password,
remember_me default false, host optional); construction never fails. -/
def UsernamePasswordToken.create (username : String) (password : String)
    (remember_me : Bool := false) (host : String := "") : UsernamePasswordToken :=
  { token_class := "UsernamePasswordToken"
    username := username
    password := strBytes password
    remember_me := remember_me
    host := host }

/-- Modelled from the spec (sections 3 and 4.1): clear() wipes the password
buffer in place to all-zero bytes of the same length; in-place byte-wise
zeroing is modelled as mapping every byte of the existing buffer to zero,
leaving every other field untouched. -/
def UsernamePasswordToken.clear (t : UsernamePasswordToken) : UsernamePasswordToken :=
  { t with password := t.password.map (fun _ => 0) }

/-- Modelled from the spec (section 4.9): the Serialization Manager selects
a concrete codec by format name. The only recognized format in the
repository is the MessagePack binary codec. -/
inductive SerializerChoice where
  | msgpack
  deriving DecidableEq, Repr

/-- Modelled from the spec (section 4.9): `construct(format = "msgpack")`
maps a recognized format name to its codec and fails with
InvalidSerializationFormat otherwise; `none` models an omitted argument,
which takes the default "msgpack". -/
def SerializationManager.construct (format : Option String) :
    Except YosaiError SerializerChoice :=
  let fmt := format.getD "msgpack"
  if fmt = "msgpack" then Except.ok SerializerChoice.msgpack
  else Except.error YosaiError.invalidSerializationFormat

/-- The error types of the pub/sub messaging backend imported at the top of
`yosai/event/event.py`: these are the backend-specific exceptions the Event
Bus translates at its boundary. -/
inductive PubSubError where
  | listenerMismatchError
  | senderMissingReqdMsgDataError
  | senderUnknownMsgDataError
  | topicDefnError
  | topicNameError
  deriving DecidableEq, Repr

/-- What a caller of an Event Bus operation can observe as a raised
exception: either an error of the system taxonomy, or a backend error that
escaped untranslated (the case where no except clause matched). -/
inductive BusRaised where
  | yosai (e : YosaiError)
  | backend (e : PubSubError)
  deriving DecidableEq, Repr

/-- `EventBus.is_registered` from `yosai/event/event.py`: calls the
backend's isSubscribed inside a try block that translates TopicNameError and
TopicDefnError into EventBusTopicError; any other backend error propagates
untranslated. The backend call is abstracted as its outcome. -/
def EventBus.is_registered (outcome : Except PubSubError Bool) :
    Except BusRaised Bool :=
  match outcome with
  | Except.ok b => Except.ok b
  | Except.error PubSubError.topicNameError =>
      Except.error (BusRaised.yosai (YosaiError.eventBusTopicError
        "TopicNameError: Unrecognized topic naming convention"))
  | Except.error PubSubError.topicDefnError =>
      Except.error (BusRaised.yosai (YosaiError.eventBusTopicError
        "TopicDefnError: Unregistered topic name"))
  | Except.error e => Except.error (BusRaised.backend e)

/-- `EventBus.publish` from `yosai/event/event.py`: calls the backend's
sendMessage, translating the two sender message-data errors into
EventBusMessageDataError and TopicDefnError into EventBusTopicError, then
returns True; any other backend error propagates untranslated. -/
def EventBus.publish (outcome : Except PubSubError Unit) :
    Except BusRaised Bool :=
  match outcome with
  | Except.ok _ => Except.ok true
  | Except.error PubSubError.senderMissingReqdMsgDataError =>
      Except.error (BusRaised.yosai (YosaiError.eventBusMessageDataError
        "SenderMissingReqdMsgDataError: can\x27t send message"))
  | Except.error PubSubError.senderUnknownMsgDataError =>
      Except.error (BusRaised.yosai (YosaiError.eventBusMessageDataError
        "SenderUnknownMsgDataError: One of the keyword arguments is not part of MDS"))
  | Except.error PubSubError.topicDefnError =>
      Except.error (BusRaised.yosai (YosaiError.eventBusTopicError
        "TopicDefnError: Sending message to an unregistered topic name"))
  | Except.error e => Except.error (BusRaised.backend e)

/-- `EventBus.register` from `yosai/event/event.py`: calls the backend's
subscribe, translating ListenerMismatchError into EventBusSubscriptionError
(with the topic name in the message) and TopicDefnError into
EventBusTopicError; on success returns the (listener handle, newly
subscribed) pair; any other backend error propagates untranslated. -/
def EventBus.register (topic_name : String)
    (outcome : Except PubSubError (Nat × Bool)) :
    Except BusRaised (Nat × Bool) :=
  match outcome with
  | Except.ok r => Except.ok r
  | Except.error PubSubError.listenerMismatchError =>
      Except.error (BusRaised.yosai (YosaiError.eventBusSubscriptionError
        ("ListenerMismatchError: Invalid Listener -- callable does not have a signature (call protocol) compatible with the MDS of topic: "
          ++ topic_name)))
  | Except.error PubSubError.topicDefnError =>
      Except.error (BusRaised.yosai (YosaiError.eventBusTopicError
        "TopicDefnError: Unregistered topic name"))
  | Except.error e => Except.error (BusRaised.backend e)

/-- `EventBus.unregister` from `yosai/event/event.py`: calls the backend's
unsubscribe, translating TopicNameError and TopicDefnError into
EventBusTopicError; returns the unsubscribed listener handle on success;
any other backend error propagates untranslated. -/
def EventBus.unregister (outcome : Except PubSubError Nat) :
    Except BusRaised Nat :=
  match outcome with
  | Except.ok l => Except.ok l
  | Except.error PubSubError.topicNameError =>
      Except.error (BusRaised.yosai (YosaiError.eventBusTopicError
        "TopicNameError: Unrecognized eventbus topic naming convention"))
  | Except.error PubSubError.topicDefnError =>
      Except.error (BusRaised.yosai (YosaiError.eventBusTopicError
        "TopicDefnError: Unregistered topic name"))
  | Except.error e => Except.error (BusRaised.backend e)

/-- `EventBus.unregister_all` from `yosai/event/event.py`: calls the
backend's unsubAll with no arguments and returns its result, with no
try block: any backend error would propagate untranslated. -/
def EventBus.unregister_all (outcome : Except PubSubError (List Nat)) :
    Except BusRaised (List Nat) :=
  match outcome with
  | Except.ok ls => Except.ok ls
  | Except.error e => Except.error (BusRaised.backend e)

/-- The five public Event Bus operations. -/
inductive BusOp where
  | isRegisteredOp
  | publishOp
  | registerOp
  | unregisterOp
  | unregisterAllOp
  deriving DecidableEq, Repr

/-- Modelled from the spec (sections 4.6 and 6): the backend errors each
Event Bus operation's backend call can raise. The pub/sub backend is
vendored third-party code outside this snapshot, so its per-call raisable
errors are taken from the per-operation failure contract of section 4.6:
is_registered fails on malformed or unregistered topic names; publish on
missing/unrecognized message data or an unregistered topic; register on a
listener/topic contract mismatch or an unregistered topic; unregister on
the same topic error conditions as is_registered; unregister_all (backend
unsubAll called with no arguments) has no failure condition. -/
def backendRaisable : BusOp → List PubSubError
  | BusOp.isRegisteredOp => [PubSubError.topicNameError, PubSubError.topicDefnError]
  | BusOp.publishOp => [PubSubError.senderMissingReqdMsgDataError,
      PubSubError.senderUnknownMsgDataError, PubSubError.topicDefnError]
  | BusOp.registerOp => [PubSubError.listenerMismatchError, PubSubError.topicDefnError]
  | BusOp.unregisterOp => [PubSubError.topicNameError, PubSubError.topicDefnError]
  | BusOp.unregisterAllOp => []

/-- True when the caller observes a raised error and that error belongs to
the system's own taxonomy. -/
def inTaxonomy {α : Type} : Except BusRaised α → Bool
  | Except.error (BusRaised.yosai _) => true
  | _ => false

/-- A Python object attribute dictionary: insertion-ordered bindings with
unique keys; setting an existing key overwrites its binding in place,
setting a new key appends it. -/
def setAttr {V : Type} : List (String × V) → String → V → List (String × V)
  | [], k, v => [(k, v)]
  | (k1, v1) :: rest, k, v =>
      if k1 = k then (k, v) :: rest else (k1, v1) :: setAttr rest k v

/-- Attribute lookup in an attribute dictionary (first binding wins; keys
are unique by construction). -/
def lookupAttr {V : Type} : List (String × V) → String → Option V
  | [], _ => none
  | (k1, v) :: rest, k => if k1 = k then some v else lookupAttr rest k

/-- `Event.__init__` from `yosai/event/event.py`: sets event_type,
event_topic, source and timestamp (the current UTC time, passed here as
`timestamp_now`) in that order, then applies
`self.__dict__.update(**eventattrs)`, which sets every caller-supplied
attribute after the fixed fields. The result is the object's attribute
dictionary. -/
def Event.init {V : Type} (event_topic event_type source timestamp_now : V)
    (eventattrs : List (String × V)) : List (String × V) :=
  let d0 := setAttr ([] : List (String × V)) "event_type" event_type
  let d1 := setAttr d0 "event_topic" event_topic
  let d2 := setAttr d1 "source" source
  let d3 := setAttr d2 "timestamp" timestamp_now
  eventattrs.foldl (fun acc kv => setAttr acc kv.1 kv.2) d3

theorem lookupAttr_setAttr_self {V : Type} (d : List (String × V)) (k : String) (v : V) :
    lookupAttr (setAttr d k v) k = some v := by
  induction d with
  | nil => simp [setAttr, lookupAttr]
  | cons p rest ih =>
    obtain ⟨k1, v1⟩ := p
    by_cases h : k1 = k
    · simp [setAttr, lookupAttr, h]
    · simp [setAttr, lookupAttr, h, ih]

theorem lookupAttr_setAttr_ne {V : Type} (d : List (String × V)) (k1 k : String) (v : V)
    (h : k1 ≠ k) :
    lookupAttr (setAttr d k1 v) k = lookupAttr d k := by
  induction d with
  | nil => simp [setAttr, lookupAttr, h]
  | cons p rest ih =>
    obtain ⟨k2, v2⟩ := p
    by_cases h2 : k2 = k1
    · subst h2
      simp [setAttr, lookupAttr, h]
    · simp [setAttr, lookupAttr, h2, ih]

theorem lookupAttr_foldl_not_mem {V : Type} (attrs : List (String × V)) (k : String)
    (h : ∀ p ∈ attrs, p.1 ≠ k) :
    ∀ d, lookupAttr (attrs.foldl (fun acc kv => setAttr acc kv.1 kv.2) d) k
      = lookupAttr d k := by
  induction attrs with
  | nil => intro d; rfl
  | cons p rest ih =>
    intro d
    simp only [List.foldl_cons]
    rw [ih (fun q hq => h q (List.mem_cons_of_mem p hq))]
    exact lookupAttr_setAttr_ne d p.1 k p.2 (h p (List.mem_cons_self p rest))

theorem lookupAttr_foldl_setAttr {V : Type} (attrs : List (String × V)) (k : String) (v : V)
    (hnd : (attrs.map Prod.fst).Nodup) (hmem : (k, v) ∈ attrs) :
    ∀ d, lookupAttr (attrs.foldl (fun acc kv => setAttr acc kv.1 kv.2) d) k = some v := by
  induction attrs with
  | nil => cases hmem
  | cons p rest ih =>
    intro d
    simp only [List.map_cons, List.nodup_cons] at hnd
    rcases List.mem_cons.mp hmem with heq | hmem'
    · subst heq
      simp only [List.foldl_cons]
      have hne : ∀ q ∈ rest, q.1 ≠ k := fun q hq hqk =>
        hnd.1 (List.mem_map.mpr ⟨q, hq, hqk⟩)
      rw [lookupAttr_foldl_not_mem rest k hne]
      exact lookupAttr_setAttr_self d k v
    · simp only [List.foldl_cons]
      exact ih hnd.2 hmem' (setAttr d p.1 p.2)

/-- Modelled from the spec (section 3): the account record a realm produces
on a successful lookup: opaque identifier, stored credentials and
attributes. -/
structure Account where
  account_id : Nat
  credentials : List (String × Nat)
  attributes : List (String × Nat)
  deriving DecidableEq, Repr

/-- Modelled from the spec (sections 3 and 4.3): a realm bridges the
authenticator to an account store: a name, a supported-token predicate, an
account-store lookup keyed by the token's identifying field, and a
credentials matcher. `AccountStoreRealm` itself is not in this snapshot. -/
structure Realm where
  name : String
  supports : UsernamePasswordToken → Bool
  store : String → Option Account
  matcher : UsernamePasswordToken → Account → Bool

/-- Modelled from the spec (section 3 and 4.4): the composite account
aggregates one account per contributing realm. -/
structure CompositeAccount where
  realm_accounts : List (String × Account)
  deriving DecidableEq, Repr

/-- Decides whether an Except value is a raised error. -/
def isErr {ε α : Type} : Except ε α → Bool
  | Except.error _ => true
  | Except.ok _ => false

/-- Modelled from the spec (section 4.3): realm authentication checks the
supported-token predicate first — mandatorily before any store lookup —
raising UnsupportedToken on rejection; then looks the account up (NotFound
when absent) and applies the credentials matcher (invalid credentials on
rejection). The second component counts how many times the account store
was consulted. -/
def Realm.authenticate_account (r : Realm) (t : UsernamePasswordToken) :
    Except YosaiError Account × Nat :=
  if r.supports t then
    match r.store t.username with
    | none => (Except.error YosaiError.accountNotFound, 1)
    | some account =>
        if r.matcher t account then (Except.ok account, 1)
        else (Except.error YosaiError.invalidCredentials, 1)
  else (Except.error YosaiError.unsupportedTokenError, 0)

/-- Modelled from the spec (section 4.5): the single-realm path delegates
directly to the realm, propagating UnsupportedToken unchanged. -/
def DefaultAuthenticator.authenticate_single_realm_account (realm : Realm)
    (t : UsernamePasswordToken) : Except YosaiError Account × Nat :=
  realm.authenticate_account t

/-- The contribution a realm makes to a composite account: its name and
account when it authenticates the token, nothing when it fails. -/
def successEntry (t : UsernamePasswordToken) (r : Realm) :
    Option (String × Account) :=
  match (r.authenticate_account t).1 with
  | Except.ok a => some (r.name, a)
  | Except.error _ => none

/-- The failure reason a realm contributes to a MultiRealmAuthenticationFailure:
its name and the description of its error when it fails, nothing on success. -/
def failureEntry (t : UsernamePasswordToken) (r : Realm) :
    Option (String × String) :=
  match (r.authenticate_account t).1 with
  | Except.error e => some (r.name, e.describe)
  | Except.ok _ => none

/-- Modelled from the spec (section 4.5): the multi-realm path attempts
authentication against every realm in the supplied set; if every realm
fails it raises MultiRealmAuthenticationFailure aggregating the per-realm
failure reasons, otherwise it returns a Composite Account built from the
realms that succeeded (partial success accepted). -/
def DefaultAuthenticator.authenticate_multi_realm_account (realms : List Realm)
    (t : UsernamePasswordToken) : Except YosaiError CompositeAccount :=
  let successes := realms.filterMap (successEntry t)
  if successes.isEmpty then
    Except.error (YosaiError.multiRealmAuthenticationFailure
      (realms.filterMap (failureEntry t)))
  else Except.ok ⟨successes⟩

/-- Modelled from the spec (sections 4.5 and 7): notify_success publishes an
authentication-success event to the Event Bus when one is configured and is
a silent no-op when none is; failures inside notification are swallowed
rather than propagated. The configured bus is modelled by the outcome its
backend would produce for the publish call. -/
def DefaultAuthenticator.notify_success
    (bus : Option (Except PubSubError Unit)) (t : UsernamePasswordToken)
    (account : Account) : Except YosaiError Unit :=
  match bus with
  | none => Except.ok ()
  | some outcome =>
      let _ := EventBus.publish outcome
      Except.ok ()

/-- Modelled from the spec (sections 4.5 and 7): notify_failure, same
swallowing policy as notify_success, with an optional account. -/
def DefaultAuthenticator.notify_failure
    (bus : Option (Except PubSubError Unit)) (t : UsernamePasswordToken)
    (account : Option Account) : Except YosaiError Unit :=
  match bus with
  | none => Except.ok ()
  | some outcome =>
      let _ := EventBus.publish outcome
      Except.ok ()

/-- A Python exception as seen by the top-level authenticate_account
wrapper: either one of the system's own taxonomy or some other exception
(such as TypeError in the test suite), identified by name. -/
inductive PyExc where
  | yosaiExc (e : YosaiError)
  | otherExc (name : String)
  deriving DecidableEq, Repr

/-- The possible outcomes of a call to do_authenticate_account: a returned
account, no result at all (Python None), or a raised exception. -/
inductive DoOutcome where
  | result (a : Account)
  | noResult
  | raised (e : PyExc)
  deriving DecidableEq, Repr

/-- The message of the AuthenticationFailure that wraps an exception from
outside the known taxonomy. -/
def unexpectedMsg : String := "unexpected error during authentication"

/-- Modelled from the spec (section 4.5): authenticate_account calls
do_authenticate_account (abstracted here by its outcome): an absent result
raises AuthenticationFailure (authentication failed); an exception of the
known taxonomy propagates unchanged; any other exception is caught and
re-raised wrapped as AuthenticationFailure with an "unexpected error"
marker and the original exception preserved as cause; a returned account is
handed back after notify_success, failures notify_failure first. A raised
error is paired with its attached cause, if any. -/
def DefaultAuthenticator.authenticate_account
    (bus : Option (Except PubSubError Unit)) (t : UsernamePasswordToken)
    (outcome : DoOutcome) : Except (YosaiError × Option PyExc) Account :=
  match outcome with
  | DoOutcome.result a =>
      let _ := DefaultAuthenticator.notify_success bus t a
      Except.ok a
  | DoOutcome.noResult =>
      let _ := DefaultAuthenticator.notify_failure bus t none
      Except.error (YosaiError.authenticationFailure "authentication failed", none)
  | DoOutcome.raised (PyExc.yosaiExc e) =>
      let _ := DefaultAuthenticator.notify_failure bus t none
      Except.error (e, none)
  | DoOutcome.raised (PyExc.otherExc name) =>
      let _ := DefaultAuthenticator.notify_failure bus t none
      Except.error (YosaiError.authenticationFailure unexpectedMsg,
        some (PyExc.otherExc name))

/-- The mock account of the test fixtures. -/
def mockAccount : Account :=
  { account_id := 8675309
    credentials := [("cred1", 1), ("cred2", 2)]
    attributes := [("attr1", 1), ("attr2", 2), ("attr3", 3)] }

/-- A realm that only supports username/password tokens, with a store that
always finds the mock account and a matcher that always accepts. -/
def mockRealm1 : Realm :=
  { name := "realm1"
    supports := fun t => t.token_class = "UsernamePasswordToken"
    store := fun _ => some mockAccount
    matcher := fun _ _ => true }

/-- A second always-succeeding realm under a different name. -/
def mockRealm2 : Realm :=
  { name := "realm2"
    supports := fun _ => true
    store := fun _ => some mockAccount
    matcher := fun _ _ => true }

/-- A realm whose matcher always rejects. -/
def mockFailingRealm : Realm :=
  { name := "failingrealm"
    supports := fun _ => true
    store := fun _ => some mockAccount
    matcher := fun _ _ => false }

/-- A token of a class no username/password realm supports, as in the
mock-token test. -/
def mockToken : UsernamePasswordToken :=
  { token_class := "MockToken"
    username := "user123"
    password := strBytes "secret"
    remember_me := false
    host := "127.0.0.1" }

/-- The username/password token of the test fixtures. -/
def mockUPT : UsernamePasswordToken :=
  UsernamePasswordToken.create "user123" "secret" false "127.0.0.1"

theorem successEntry_eq_none_iff (t : UsernamePasswordToken) (r : Realm) :
    successEntry t r = none ↔ isErr (r.authenticate_account t).1 = true := by
  unfold successEntry
  cases h : (r.authenticate_account t).1 <;> simp [isErr]

/-- MessagePack fixstr encoding of a short text key: one byte 0xa0 plus the
length, followed by the key's bytes (the keys here are ASCII, so each
character is one byte equal to its code point). -/
def encodeFixstr (s : String) : List Nat :=
  (0xa0 + s.data.length) :: s.data.map Char.toNat

/-- MessagePack encoding of one map entry: the fixstr key followed by the
value as a positive fixint (one byte below 0x80). -/
def encodeEntry (kv : String × Nat) : List Nat :=
  encodeFixstr kv.1 ++ [kv.2]

/-- Modelled from the spec (sections 4.10 and 6): the binary codec's
serialize — the deterministic MessagePack encoding of a key/value mapping.
The fixmap/fixstr/positive-fixint layer of the wire format is modelled: a
map of up to 15 entries is one byte 0x80 plus the entry count followed by
the encoded entries; nested mappings, sequences and larger sizes are
outside this model. The codec itself wraps a vendored MessagePack library
that is not part of this snapshot. -/
def MSGPackSerializer.serialize (m : List (String × Nat)) : List Nat :=
  (0x80 + m.length) :: (m.map encodeEntry).flatten

/-- Decodes a fixstr body of the given length: each byte below 0x80 becomes
one ASCII character; returns the decoded characters and the remaining
bytes. -/
def decodeKey : Nat → List Nat → Option (List Char × List Nat)
  | 0, bs => some ([], bs)
  | _ + 1, [] => none
  | n + 1, b :: bs =>
      if b < 128 then
        match decodeKey n bs with
        | some (cs, rest) => some (Char.ofNat b :: cs, rest)
        | none => none
      else none

/-- Decodes one map entry: a fixstr tag byte (0xa0 to 0xbf) carrying the
key length, the key bytes, then a positive-fixint value byte; returns the
entry and the remaining bytes. -/
def decodeEntry (bs : List Nat) : Option ((String × Nat) × List Nat) :=
  match bs with
  | [] => none
  | b :: bs =>
      if 0xa0 ≤ b ∧ b < 0xc0 then
        match decodeKey (b - 0xa0) bs with
        | none => none
        | some (_, []) => none
        | some (cs, v :: rest) =>
            if v < 0x80 then some ((String.mk cs, v), rest) else none
      else none

/-- Decodes the given number of map entries in sequence, returning them and
the remaining bytes. -/
def decodeEntries : Nat → List Nat → Option (List (String × Nat) × List Nat)
  | 0, bs => some ([], bs)
  | n + 1, bs =>
      match decodeEntry bs with
      | none => none
      | some (kv, rest) =>
          match decodeEntries n rest with
          | some (entries, rem) => some (kv :: entries, rem)
          | none => none

/-- Modelled from the spec (sections 4.10 and 6): the binary codec's
deserialize — the exact inverse of serialize on the modelled fixmap
fragment: a fixmap tag byte (0x80 to 0x8f) carrying the entry count,
followed by exactly that many entries and nothing else. -/
def MSGPackSerializer.deserialize (bs : List Nat) :
    Option (List (String × Nat)) :=
  match bs with
  | [] => none
  | b :: rest =>
      if 0x80 ≤ b ∧ b < 0x90 then
        match decodeEntries (b - 0x80) rest with
        | some (entries, []) => some entries
        | _ => none
      else none

/-- A supported map key: a short ASCII text label of at most 31 bytes. -/
def wfKey (s : String) : Prop :=
  s.data.length ≤ 31 ∧ ∀ c ∈ s.data, Char.toNat c < 128

/-- A supported mapping for the modelled codec fragment: at most 15
entries, each a supported key with a value below 128. -/
def wfMap (m : List (String × Nat)) : Prop :=
  m.length ≤ 15 ∧ ∀ kv ∈ m, wfKey kv.1 ∧ kv.2 < 128

instance wfKeyDecidable (s : String) : Decidable (wfKey s) :=
  inferInstanceAs (Decidable (s.data.length ≤ 31 ∧ ∀ c ∈ s.data, Char.toNat c < 128))

instance wfMapDecidable (m : List (String × Nat)) : Decidable (wfMap m) :=
  inferInstanceAs (Decidable (m.length ≤ 15 ∧ ∀ kv ∈ m, wfKey kv.1 ∧ kv.2 < 128))

/-- The three-entry integer mapping of the tests and of spec section 6. -/
def exampleMap : List (String × Nat) := [("one", 1), ("two", 2), ("three", 3)]

/-- The fixed byte sequence spec section 6 assigns to the example mapping. -/
def exampleBytes : List Nat :=
  [0x83, 0xa3, 0x6f, 0x6e, 0x65, 0x01, 0xa3, 0x74, 0x77, 0x6f, 0x02,
   0xa5, 0x74, 0x68, 0x72, 0x65, 0x65, 0x03]

theorem decodeKey_encode (cs : List Char) (rest : List Nat)
    (h : ∀ c ∈ cs, Char.toNat c < 128) :
    decodeKey cs.length (cs.map Char.toNat ++ rest) = some (cs, rest) := by
  induction cs with
  | nil => rfl
  | cons c tl ih =>
    have hc := h c (List.mem_cons_self _ _)
    simp only [List.length_cons, List.map_cons, List.cons_append, decodeKey]
    rw [if_pos hc]
    simp [ih (fun x hx => h x (List.mem_cons_of_mem _ hx)), Char.ofNat_toNat]

theorem decodeEntry_encode (k : String) (v : Nat) (rest : List Nat)
    (hklen : k.data.length ≤ 31) (hkchars : ∀ c ∈ k.data, Char.toNat c < 128)
    (hv : v < 128) :
    decodeEntry (encodeEntry (k, v) ++ rest) = some ((k, v), rest) := by
  unfold decodeEntry encodeEntry encodeFixstr
  simp only [List.cons_append, List.append_assoc, List.singleton_append,
    List.nil_append]
  rw [if_pos ⟨Nat.le_add_right _ _, by omega⟩, Nat.add_sub_cancel_left,
    decodeKey_encode k.data (v :: rest) hkchars]
  simp only [if_pos hv]

theorem decodeEntries_encode (m : List (String × Nat)) (rest : List Nat)
    (h : ∀ kv ∈ m, kv.1.data.length ≤ 31 ∧
      (∀ c ∈ kv.1.data, Char.toNat c < 128) ∧ kv.2 < 128) :
    decodeEntries m.length ((m.map encodeEntry).flatten ++ rest) = some (m, rest) := by
  induction m generalizing rest with
  | nil => rfl
  | cons kv tl ih =>
    obtain ⟨k, v⟩ := kv
    obtain ⟨hklen, hkchars, hv⟩ := h (k, v) (List.mem_cons_self _ _)
    have htl := fun p hp => h p (List.mem_cons_of_mem _ hp)
    simp only [List.map_cons, List.flatten_cons, List.length_cons, List.append_assoc]
    simp only [decodeEntries]
    rw [decodeEntry_encode k v _ hklen hkchars hv]
    simp [ih rest htl]

theorem C9_msgpack_roundtrip_aux (m : List (String × Nat)) (h : wfMap m) :
    MSGPackSerializer.deserialize (MSGPackSerializer.serialize m) = some m := by
  obtain ⟨hlen, hkv⟩ := h
  have hkv2 : ∀ kv ∈ m, kv.1.data.length ≤ 31 ∧
      (∀ c ∈ kv.1.data, Char.toNat c < 128) ∧ kv.2 < 128 :=
    fun kv hm => ⟨(hkv kv hm).1.1, (hkv kv hm).1.2, (hkv kv hm).2⟩
  unfold MSGPackSerializer.serialize MSGPackSerializer.deserialize
  simp only []
  rw [if_pos ⟨Nat.le_add_right _ _, by omega⟩, Nat.add_sub_cancel_left]
  have hdec := decodeEntries_encode m [] hkv2
  rw [List.append_nil] at hdec
  rw [hdec]

end Yosai

namespace Yosai

/-- C5: for every token whose password buffer has length n, clear() leaves a
buffer of exactly n zero bytes and changes no other field of the token. -/
theorem C5_token_clear (t : UsernamePasswordToken) (n : Nat)
    (h : t.password.length = n) :
    t.clear.password = List.replicate n 0 ∧
    t.clear.username = t.username ∧
    t.clear.remember_me = t.remember_me ∧
    t.clear.host = t.host ∧
    t.clear.token_class = t.token_class := by
  refine ⟨?_, rfl, rfl, rfl, rfl⟩
  simp [UsernamePasswordToken.clear, List.map_const, h, List.eq_replicate_iff]

/-- C5 witness: clearing the 6-character password "secret" yields exactly six
zero bytes. -/
theorem C5_token_clear_witness :
    (UsernamePasswordToken.create "user123" "secret" false "127.0.0.1").password.length = 6 ∧
    (UsernamePasswordToken.create "user123" "secret" false "127.0.0.1").clear.password =
      List.replicate 6 0 :=
  ⟨by decide, (C5_token_clear (UsernamePasswordToken.create "user123" "secret" false "127.0.0.1")
      6 (by decide)).1⟩

/-- C8: constructing a Serialization Manager with any unrecognized format
name raises InvalidSerializationFormat, and constructing one with the format
argument omitted selects the MessagePack binary codec. -/
theorem C8_serialization_manager_format (f : String) (h : f ≠ "msgpack") :
    SerializationManager.construct (some f) =
      Except.error YosaiError.invalidSerializationFormat ∧
    SerializationManager.construct none = Except.ok SerializerChoice.msgpack := by
  constructor
  · simp [SerializationManager.construct, h]
  · rfl

/-- C8 witness: the unrecognized format name from the test suite. -/
theorem C8_serialization_manager_format_witness :
    "protobufferoni" ≠ "msgpack" ∧
    SerializationManager.construct (some "protobufferoni") =
      Except.error YosaiError.invalidSerializationFormat :=
  ⟨by decide, (C8_serialization_manager_format "protobufferoni" (by decide)).1⟩

/-- C2: for every public Event Bus operation and every error its backend
call can raise (per the backend contract of spec sections 4.6 and 6), the
error the caller observes is one of the system's own taxonomy: no
backend-specific error type escapes from these operations. -/
theorem C2_eventbus_error_translation (topic_name : String) :
    (∀ e ∈ backendRaisable BusOp.isRegisteredOp,
      inTaxonomy (EventBus.is_registered (Except.error e)) = true) ∧
    (∀ e ∈ backendRaisable BusOp.publishOp,
      inTaxonomy (EventBus.publish (Except.error e)) = true) ∧
    (∀ e ∈ backendRaisable BusOp.registerOp,
      inTaxonomy (EventBus.register topic_name (Except.error e)) = true) ∧
    (∀ e ∈ backendRaisable BusOp.unregisterOp,
      inTaxonomy (EventBus.unregister (Except.error e)) = true) ∧
    (∀ e ∈ backendRaisable BusOp.unregisterAllOp,
      inTaxonomy (EventBus.unregister_all (Except.error e)) = true) := by
  refine ⟨?_, ?_, ?_, ?_, ?_⟩ <;> intro e he <;>
    fin_cases he <;>
    simp [EventBus.is_registered, EventBus.publish, EventBus.register,
      EventBus.unregister, EventBus.unregister_all, inTaxonomy]

/-- C2 witness: concrete backend errors raised inside each translating
operation are observed as taxonomy errors. -/
theorem C2_eventbus_error_translation_witness :
    inTaxonomy (EventBus.is_registered
      (Except.error PubSubError.topicNameError)) = true ∧
    inTaxonomy (EventBus.publish
      (Except.error PubSubError.senderMissingReqdMsgDataError)) = true ∧
    inTaxonomy (EventBus.register "AUTHENTICATION"
      (Except.error PubSubError.listenerMismatchError)) = true ∧
    inTaxonomy (EventBus.unregister
      (Except.error PubSubError.topicDefnError)) = true :=
  ⟨(C2_eventbus_error_translation "AUTHENTICATION").1
      PubSubError.topicNameError (by decide),
   (C2_eventbus_error_translation "AUTHENTICATION").2.1
      PubSubError.senderMissingReqdMsgDataError (by decide),
   (C2_eventbus_error_translation "AUTHENTICATION").2.2.1
      PubSubError.listenerMismatchError (by decide),
   (C2_eventbus_error_translation "AUTHENTICATION").2.2.2.1
      PubSubError.topicDefnError (by decide)⟩

/-- C10: the Event constructor applies the caller-supplied named attributes
after setting the fixed envelope fields, so any caller-supplied attribute —
including one named event_type, event_topic, source or timestamp — ends up
with the caller-supplied value in the constructed event's attribute
dictionary, replacing the fixed field's value; in particular an Event
constructed with a timestamp attribute carries that value rather than the
construction-time timestamp. -/
theorem C10_event_attrs_override {V : Type} (event_topic event_type source timestamp_now : V)
    (eventattrs : List (String × V)) (k : String) (v : V)
    (hnd : (eventattrs.map Prod.fst).Nodup) (hmem : (k, v) ∈ eventattrs) :
    lookupAttr (Event.init event_topic event_type source timestamp_now eventattrs) k
      = some v :=
  lookupAttr_foldl_setAttr eventattrs k v hnd hmem _

/-- C10 witness: an Event built with a caller-supplied timestamp attribute
of 42 while the construction-time clock reads 1000 carries timestamp 42. -/
theorem C10_event_attrs_override_witness :
    lookupAttr (Event.init (0 : Nat) 1 2 1000 [("timestamp", 42)]) "timestamp"
      = some 42 :=
  C10_event_attrs_override 0 1 2 1000 [("timestamp", 42)] "timestamp" 42
    (by decide) (by decide)

/-- C1: for every non-empty set of realms and every token, the multi-realm
path raises (an error) exactly when every realm fails; a raised error is
MultiRealmAuthenticationFailure aggregating the per-realm failure reasons;
and a returned Composite Account is built from exactly the realms that
succeeded, each contributing its name and account. -/
theorem C1_multi_realm_aggregation (realms : List Realm) (t : UsernamePasswordToken)
    (hne : realms ≠ []) :
    (isErr (DefaultAuthenticator.authenticate_multi_realm_account realms t) = true ↔
      ∀ r ∈ realms, isErr (Realm.authenticate_account r t).1 = true) ∧
    (∀ e, DefaultAuthenticator.authenticate_multi_realm_account realms t
        = Except.error e →
      e = YosaiError.multiRealmAuthenticationFailure
            (realms.filterMap (failureEntry t))) ∧
    (∀ ca, DefaultAuthenticator.authenticate_multi_realm_account realms t
        = Except.ok ca →
      ca.realm_accounts = realms.filterMap (successEntry t)) := by
  by_cases hemp : realms.filterMap (successEntry t) = []
  · have hres : DefaultAuthenticator.authenticate_multi_realm_account realms t
        = Except.error (YosaiError.multiRealmAuthenticationFailure
            (realms.filterMap (failureEntry t))) := by
      unfold DefaultAuthenticator.authenticate_multi_realm_account
      simp [hemp]
    have hall : ∀ r ∈ realms, isErr (Realm.authenticate_account r t).1 = true :=
      fun r hr => (successEntry_eq_none_iff t r).mp
        (List.filterMap_eq_nil_iff.mp hemp r hr)
    refine ⟨?_, ?_, ?_⟩
    · rw [hres]
      exact iff_of_true rfl hall
    · intro e he
      rw [hres] at he
      injection he with h
      exact h.symm
    · intro ca hca
      rw [hres] at hca
      simp at hca
  · have hres : DefaultAuthenticator.authenticate_multi_realm_account realms t
        = Except.ok ⟨realms.filterMap (successEntry t)⟩ := by
      unfold DefaultAuthenticator.authenticate_multi_realm_account
      simp [List.isEmpty_eq_true, hemp]
    refine ⟨?_, ?_, ?_⟩
    · rw [hres]
      refine iff_of_false (by simp [isErr]) ?_
      intro hall
      exact hemp (List.filterMap_eq_nil_iff.mpr
        (fun r hr => (successEntry_eq_none_iff t r).mpr (hall r hr)))
    · intro e he
      rw [hres] at he
      simp at he
    · intro ca hca
      rw [hres] at hca
      injection hca with h
      rw [← h]

/-- C1 witness: two succeeding realms yield a composite with exactly both
contributions, instantiating the multi-realm aggregation theorem. -/
theorem C1_multi_realm_aggregation_witness :
    [mockRealm1, mockRealm2] ≠ ([] : List Realm) ∧
    (∀ ca, DefaultAuthenticator.authenticate_multi_realm_account
        [mockRealm1, mockRealm2] mockUPT = Except.ok ca →
      ca.realm_accounts = [mockRealm1, mockRealm2].filterMap (successEntry mockUPT)) :=
  ⟨List.cons_ne_nil _ _,
   (C1_multi_realm_aggregation [mockRealm1, mockRealm2] mockUPT
      (List.cons_ne_nil _ _)).2.2⟩

/-- C3: for every token and every exception outside the known taxonomy
raised by do_authenticate_account, authenticate_account raises an
AuthenticationFailure whose message contains the "unexpected" marker and
whose attached cause is the original exception. -/
theorem C3_unexpected_exception_wrapped (bus : Option (Except PubSubError Unit))
    (t : UsernamePasswordToken) (name : String) :
    DefaultAuthenticator.authenticate_account bus t
        (DoOutcome.raised (PyExc.otherExc name))
      = Except.error (YosaiError.authenticationFailure unexpectedMsg,
          some (PyExc.otherExc name)) ∧
    "unexpected".data <:+: unexpectedMsg.data :=
  ⟨rfl, by decide⟩

/-- C4: for every token, when do_authenticate_account returns no result,
authenticate_account raises AuthenticationFailure rather than handing the
absent value back to the caller. -/
theorem C4_no_result_raises (bus : Option (Except PubSubError Unit))
    (t : UsernamePasswordToken) :
    DefaultAuthenticator.authenticate_account bus t DoOutcome.noResult
      = Except.error (YosaiError.authenticationFailure "authentication failed", none) :=
  rfl

/-- C6: for every realm and every token the realm's supports check rejects,
authenticate_single_realm_account raises UnsupportedToken and the realm's
account store is consulted zero times. -/
theorem C6_unsupported_token (realm : Realm) (t : UsernamePasswordToken)
    (h : realm.supports t = false) :
    DefaultAuthenticator.authenticate_single_realm_account realm t
      = (Except.error YosaiError.unsupportedTokenError, 0) := by
  simp [DefaultAuthenticator.authenticate_single_realm_account,
    Realm.authenticate_account, h]

/-- C6 witness: the mock token's class is rejected by the username/password
realm, so single-realm authentication raises UnsupportedToken with no store
lookup. -/
theorem C6_unsupported_token_witness :
    mockRealm1.supports mockToken = false ∧
    DefaultAuthenticator.authenticate_single_realm_account mockRealm1 mockToken
      = (Except.error YosaiError.unsupportedTokenError, 0) :=
  ⟨by decide, C6_unsupported_token mockRealm1 mockToken (by decide)⟩

/-- C7: for every token, every account (or absent account) and every bus
configuration (none, or one whose backend publish succeeds or raises any
backend error), notify_success and notify_failure return no value and never
raise. -/
theorem C7_notify_never_raises (bus : Option (Except PubSubError Unit))
    (t : UsernamePasswordToken) (account : Account) (failed : Option Account) :
    DefaultAuthenticator.notify_success bus t account = Except.ok () ∧
    DefaultAuthenticator.notify_failure bus t failed = Except.ok () := by
  cases bus <;>
    simp [DefaultAuthenticator.notify_success, DefaultAuthenticator.notify_failure]

/-- C9: the binary codec round-trips every supported mapping
(deserialize after serialize is the identity); serialize applied to the
mapping one/two/three yields exactly the byte sequence
83 a3 6f 6e 65 01 a3 74 77 6f 02 a5 74 68 72 65 65 03, and deserialize
applied to those bytes yields that mapping. -/
theorem C9_msgpack_roundtrip (m : List (String × Nat)) (h : wfMap m) :
    MSGPackSerializer.deserialize (MSGPackSerializer.serialize m) = some m ∧
    MSGPackSerializer.serialize exampleMap = exampleBytes ∧
    MSGPackSerializer.deserialize exampleBytes = some exampleMap :=
  ⟨C9_msgpack_roundtrip_aux m h, by decide, by decide⟩

/-- C9 witness: the example mapping is a supported mapping and round-trips
through the codec. -/
theorem C9_msgpack_roundtrip_witness :
    wfMap exampleMap ∧
    MSGPackSerializer.deserialize (MSGPackSerializer.serialize exampleMap)
      = some exampleMap :=
  ⟨by decide, (C9_msgpack_roundtrip exampleMap (by decide)).1⟩

end Yosai
